import Mathlib

/-!
Verification development for the IvyLeague conversational-analytics service.

The definitions below are a shallow embedding of the Python source:
  * `src/api/database/queries.py` — `validate_and_fix_query` (a pipeline of
    `re.sub` rewrites) and `execute_query` (row cap + error translation);
  * `src/api/ai/agents.py` — `keep_recent_messages`;
  * `src/api/routers/chat.py` — `handle_chat_query` / `handle_simple_llm_query`
    (the orchestrator pipeline), modelled as a pure function of an environment
    that fixes the outcome of every external call;
  * `src/api/routers/transactions.py` — `grafana_webhook`.

Python's `re.sub` is embedded by a small backtracking regular-expression
engine covering exactly the constructs the source's nine patterns use
(case-insensitive literals, character classes, greedy/lazy repetition, an
optional capture group, word boundaries, and lookahead), with Python's
match priority (leftmost match, greedy = longest first, lazy = shortest
first, repeated non-overlapping substitution, unmatched groups rendered as
the empty string).
-/

set_option maxRecDepth 100000
set_option maxHeartbeats 4000000

/-! ## Basic character and string helpers

Python string operations are modelled on code points (every string in the
source is ASCII); core `String` operations that walk byte positions are
avoided because the kernel cannot evaluate them effectively. -/

/-- The code points of a string.  The regex engine below works on code
points (`Nat`) rather than `Char` so that the kernel can evaluate it with
its fast numeric primitives; all of the source's strings are ASCII, so this
is an exact representation. -/
def strCodes (s : String) : List Nat := s.toList.map Char.toNat

/-- Turn a list of code points back into a string. -/
def codesToStr (l : List Nat) : String := String.mk (l.map Char.ofNat)

/-- Lower-case an ASCII code point, used for `re.IGNORECASE` comparisons. -/
def lcn (n : Nat) : Nat := if 65 ≤ n ∧ n ≤ 90 then n + 32 else n

/-- Python `\w` on ASCII: letters, digits and underscore. -/
def isWordCode (n : Nat) : Bool :=
  (48 ≤ n && n ≤ 57) || (65 ≤ n && n ≤ 90) || (97 ≤ n && n ≤ 122) || n == 95

/-- Python `\s` on ASCII: space, tab, newline, vertical tab, form feed,
carriage return. -/
def isSpaceCode (n : Nat) : Bool :=
  n == 32 || n == 9 || n == 10 || n == 11 || n == 12 || n == 13

/-- Python `s.upper()` on ASCII. -/
def pyUpper (s : String) : String :=
  codesToStr ((strCodes s).map (fun n => if 97 ≤ n ∧ n ≤ 122 then n - 32 else n))

/-- Python `s.lower()` on ASCII. -/
def pyLower (s : String) : String :=
  codesToStr ((strCodes s).map (fun n => if 65 ≤ n ∧ n ≤ 90 then n + 32 else n))

/-- Python `s[:n]`: the first `n` characters. -/
def pyTake (s : String) (n : Nat) : String := codesToStr ((strCodes s).take n)

/-- Does `pat` occur at the start of `l`? -/
def headMatchesN : List Nat → List Nat → Bool
  | [], _ => true
  | _ :: _, [] => false
  | a :: as, b :: bs => a == b && headMatchesN as bs

/-- Does `pat` occur anywhere in `l`?  (Python's `pat in s`.) -/
def subOccursN (pat : List Nat) : List Nat → Bool
  | [] => headMatchesN pat []
  | c :: cs => headMatchesN pat (c :: cs) || subOccursN pat cs

/-- Python's substring test `pat in s`. -/
def containsStr (s pat : String) : Bool := subOccursN (strCodes pat) (strCodes s)

/-- Python's `s.rstrip(c)`: drop trailing occurrences of one character. -/
def rstripChar (s : String) (c : Char) : String :=
  String.mk ((s.toList.reverse.dropWhile (fun d => d == c)).reverse)

/-! ## A small regular-expression engine with Python `re` semantics

Only the constructs appearing in the nine patterns of
`validate_and_fix_query` are represented.  All literals and character
classes match case-insensitively, because the source passes
`flags=re.IGNORECASE` to every `re.sub`. -/

/-- Regular-expression abstract syntax. -/
inductive RE where
  /-- empty pattern -/
  | eps : RE
  /-- case-insensitive literal string -/
  | lit (s : String) : RE
  /-- one character (code point) satisfying a predicate (a character class) -/
  | one (p : Nat → Bool) : RE
  /-- concatenation -/
  | seq (a b : RE) : RE
  /-- alternation, left alternative preferred -/
  | alt (a b : RE) : RE
  /-- `?` (greedy when `g`, else lazy) -/
  | opt (g : Bool) (a : RE) : RE
  /-- `*` (greedy when `g`, else lazy) -/
  | star (g : Bool) (a : RE) : RE
  /-- `+` (greedy when `g`, else lazy) -/
  | plus (g : Bool) (a : RE) : RE
  /-- numbered capture group -/
  | grp (n : Nat) (a : RE) : RE
  /-- zero-width lookahead: `(?=a)` when `posi`, `(?!a)` otherwise -/
  | look (posi : Bool) (a : RE) : RE
  /-- `\b` word boundary -/
  | bnd : RE
  /-- `$` end of input (or just before a final newline) -/
  | eot : RE

/-- Captures: `(group, captured code points)`, most recent first. -/
abbrev CapsL := List (Nat × List Nat)

/-- The result of a match attempt: the last consumed code point (for later
word-boundary tests), the remaining input, and the captures. -/
abbrev MRes := Option (Option Nat × List Nat × CapsL)

/-- Consume a case-insensitive literal from the front of `rest`; returns the
last consumed code point and the remainder. -/
def litConsume : List Nat → Option Nat → List Nat → Option (Option Nat × List Nat)
  | [], prev, rest => some (prev, rest)
  | _ :: _, _, [] => none
  | c :: cs, _, d :: rest' => if lcn d == lcn c then litConsume cs (some d) rest' else none

/-- Is the junction between `prev` and the head of `rest` a word boundary
(Python `\b`)? -/
def wordBoundary (prev : Option Nat) (rest : List Nat) : Bool :=
  let before : Bool := match prev with | some c => isWordCode c | none => false
  let after : Bool := match rest with | c :: _ => isWordCode c | [] => false
  before != after

/-- Is `rest` the end of the input, or exactly a final newline (Python `$`)? -/
def atEnd (rest : List Nat) : Bool :=
  rest.isEmpty || rest == [10]

/-- The code points of `before` that precede the suffix `after` — i.e. the
part a sub-match consumed, recorded as a group's capture. -/
def takeConsumed (before after : List Nat) : List Nat :=
  before.take (before.length - after.length)

/-- Backtracking matcher in continuation-passing style, structural on the
pattern.  The continuation receives the last consumed code point, the
remaining input and the accumulated captures; alternatives are tried in
Python's priority order (greedy = longest first, lazy = shortest first,
left alternative first), so the first success returned is the match Python
would produce.  Iterating a `star`/`plus` loop re-enters through `loop`,
which `reMatchFuel` ties back to the matcher one fuel level down.  Every
repetition body in the source's nine patterns consumes at least one
character, so the fuel bound used below is never reached on a real match
and Python's empty-iteration cutoff never fires. -/
def reMatchStep
    (loop : RE → Option Nat → List Nat → CapsL → (Option Nat → List Nat → CapsL → MRes) → MRes) :
    RE → Option Nat → List Nat → CapsL → (Option Nat → List Nat → CapsL → MRes) → MRes
  | .eps, prev, rest, caps, k => k prev rest caps
  | .lit cs, prev, rest, caps, k =>
    (match litConsume (strCodes cs) prev rest with
     | some (p, r) => k p r caps
     | none => none)
  | .one p, _, rest, caps, k =>
    (match rest with
     | c :: r => if p c then k (some c) r caps else none
     | [] => none)
  | .seq a b, prev, rest, caps, k =>
    reMatchStep loop a prev rest caps (fun p r c => reMatchStep loop b p r c k)
  | .alt a b, prev, rest, caps, k =>
    reMatchStep loop a prev rest caps k <|> reMatchStep loop b prev rest caps k
  | .opt g a, prev, rest, caps, k =>
    if g then reMatchStep loop a prev rest caps k <|> k prev rest caps
    else k prev rest caps <|> reMatchStep loop a prev rest caps k
  | .star g a, prev, rest, caps, k =>
    let again := fun p r c => loop (.star g a) p r c k
    if g then reMatchStep loop a prev rest caps again <|> k prev rest caps
    else k prev rest caps <|> reMatchStep loop a prev rest caps again
  | .plus g a, prev, rest, caps, k =>
    reMatchStep loop a prev rest caps (fun p r c => loop (.star g a) p r c k)
  | .grp n a, prev, rest, caps, k =>
    reMatchStep loop a prev rest caps (fun p r c => k p r ((n, takeConsumed rest r) :: c))
  | .look posi a, prev, rest, caps, k =>
    let r := reMatchStep loop a prev rest caps (fun p rr c => some (p, rr, c))
    if posi then
      match r with
      | some (_, _, c) => k prev rest c
      | none => none
    else
      match r with
      | some _ => none
      | none => k prev rest caps
  | .bnd, prev, rest, caps, k => if wordBoundary prev rest then k prev rest caps else none
  | .eot, prev, rest, caps, k => if atEnd rest then k prev rest caps else none

/-- The matcher with a fuel bound on quantifier iterations.  Each iteration
of a repetition loop in the source's patterns consumes at least one
character, so fuel `input length + 1` is never exhausted on a real match. -/
def reMatchFuel : Nat →
    RE → Option Nat → List Nat → CapsL → (Option Nat → List Nat → CapsL → MRes) → MRes
  | 0 => fun _ _ _ _ _ => none
  | f + 1 => reMatchStep (reMatchFuel f)

/-- One piece of a replacement template: literal text or a backreference. -/
inductive TItem where
  | lit (s : String) : TItem
  | ref (n : Nat) : TItem

/-- Render a replacement template.  As in Python (3.5+), a backreference to a
group that did not participate in the match renders as the empty string. -/
def renderT (caps : CapsL) : List TItem → List Nat
  | [] => []
  | .lit str :: rest => strCodes str ++ renderT caps rest
  | .ref n :: rest =>
    (match caps.find? (fun t => t.1 == n) with
     | some t => t.2
     | none => []) ++ renderT caps rest

/-- Scan of `re.sub`: walk left to right, try a match at every position,
replace every leftmost non-overlapping match and copy unmatched characters.
(None of the source's patterns can match the empty string, so no match can
start at the very end of the input and the empty-match special case below
is never taken; both are still written out to mirror Python.) -/
def subScan (re : RE) (tmpl : List TItem) (mfuel : Nat) :
    Nat → Option Nat → List Nat → List Nat
  | 0, _, rest => rest
  | f + 1, prev, rest =>
    match rest with
    | [] => []
    | c :: rest' =>
      match reMatchFuel mfuel re prev rest [] (fun p r cs => some (p, r, cs)) with
      | some (p2, rest2, caps) =>
        if rest2.length < rest.length then
          renderT caps tmpl ++ subScan re tmpl mfuel f p2 rest2
        else
          renderT caps tmpl ++ c :: subScan re tmpl mfuel f (some c) rest'
      | none => c :: subScan re tmpl mfuel f (some c) rest'

/-- Python `re.sub(pattern, template, s, flags=re.IGNORECASE)` on code
points. -/
def pySubCodes (re : RE) (tmpl : List TItem) (codes : List Nat) : List Nat :=
  subScan re tmpl (codes.length + 1) (codes.length + 1) none codes

/-! ## The nine patterns of `validate_and_fix_query`

Source: `src/api/database/queries.py`, lists `common_fixes` (six patterns)
and `timestamp_fixes` (three patterns), each applied by `re.sub` with
`re.IGNORECASE` in order. -/

/-- `\s` as a pattern. -/
def wsp : RE := .one isSpaceCode

/-- `\w` as a pattern. -/
def wrd : RE := .one isWordCode

/-- `[><=]` as a pattern (code points 62, 60, 61). -/
def cmpCls : RE := .one (fun n => n == 62 || n == 60 || n == 61)

/-- `[^,]` as a pattern (the comma is code point 44). -/
def notComma : RE := .one (fun n => !(n == 44))

/-- `[^:]` as a pattern (the colon is code point 58). -/
def notColon : RE := .one (fun n => !(n == 58))

/-- `['"]` as a pattern (quote code points 39 and 34). -/
def quoteCls : RE := .one (fun n => n == 39 || n == 34)

/-- Concatenate a list of patterns. -/
def rseq (l : List RE) : RE := l.foldr RE.seq RE.eps

/-- Pattern `SELECT\s+([^,]*,\s*)?final_status\b`. -/
def patSelectFinalStatus : RE :=
  rseq [.lit "SELECT", .plus true wsp,
        .opt true (.grp 1 (rseq [.star true notComma, .lit ",", .star true wsp])),
        .lit "final_status", .bnd]

/-- Replacement template of the first fix.  The source writes it as a raw
string containing backslash-quote pairs; Python's `re.sub` keeps unknown
non-letter escapes together with their backslash, so the emitted text
literally contains backslashes before every quote. -/
def tmplSelectFinalStatus : List TItem :=
  [.lit "SELECT ", .ref 1,
   .lit "CASE WHEN event_type = \\'SettlementConfirmed\\' THEN \\'SUCCESSFUL\\' ELSE \\'FAILED\\' END as final_status"]

/-- Pattern `WHERE\s+final_status\s*=\s*['"](\w+)['"]`. -/
def patWhereFinalStatus : RE :=
  rseq [.lit "WHERE", .plus true wsp, .lit "final_status", .star true wsp,
        .lit "=", .star true wsp, quoteCls, .grp 1 (.plus true wrd), quoteCls]

/-- Replacement template of the second fix (raw string: the backslashes
before the quotes are part of the emitted text, as in the source). -/
def tmplWhereFinalStatus : List TItem :=
  [.lit "WHERE (CASE WHEN event_type = \\'SettlementConfirmed\\' THEN \\'SUCCESSFUL\\' ELSE \\'FAILED\\' END) = \\'",
   .ref 1, .lit "\\'"]

/-- Pattern `ORDER BY\s+final_status\b`. -/
def patOrderFinalStatus : RE :=
  rseq [.lit "ORDER BY", .plus true wsp, .lit "final_status", .bnd]

/-- Replacement template of the third fix (raw string: the backslashes
before the quotes are part of the emitted text, as in the source). -/
def tmplOrderFinalStatus : List TItem :=
  [.lit "ORDER BY (CASE WHEN event_type = \\'SettlementConfirmed\\' THEN \\'SUCCESSFUL\\' ELSE \\'FAILED\\' END)"]

/-- Pattern `WHERE\s+success_rate\s*[><=]`. -/
def patWhereSuccessRate : RE :=
  rseq [.lit "WHERE", .plus true wsp, .lit "success_rate", .star true wsp, cmpCls]

/-- Replacement `WHERE (SELECT success_rate FROM transaction_summary)`. -/
def tmplWhereSuccessRate : List TItem :=
  [.lit "WHERE (SELECT success_rate FROM transaction_summary)"]

/-- Pattern `WHERE\s+count\s*[><=]`. -/
def patWhereCount : RE :=
  rseq [.lit "WHERE", .plus true wsp, .lit "count", .star true wsp, cmpCls]

/-- Replacement `WHERE transaction_count`. -/
def tmplWhereCount : List TItem := [.lit "WHERE transaction_count"]

/-- Pattern `FROM\s+transaction_summary\b`. -/
def patFromSummaryTable : RE :=
  rseq [.lit "FROM", .plus true wsp, .lit "transaction_summary", .bnd]

/-- Replacement: the inline aggregate subquery the source substitutes for the
non-existent `transaction_summary` table. -/
def tmplFromSummaryTable : List TItem :=
  [.lit "FROM (WITH latest_events AS (SELECT *, ROW_NUMBER() OVER (PARTITION BY transaction_id ORDER BY timestamp::timestamptz DESC) as rn FROM transactions) SELECT COUNT(*) as total_transactions FROM latest_events WHERE rn = 1) as transaction_summary"]

/-- Pattern `\btimestamp\s*([><=]+)\s*([^:]+?)(?=\s|$|;|\))`. -/
def patTimestampCompare : RE :=
  rseq [.bnd, .lit "timestamp", .star true wsp, .grp 1 (.plus true cmpCls),
        .star true wsp, .grp 2 (.plus false notColon),
        .look true (.alt wsp (.alt .eot (.alt (.lit ";") (.lit ")"))))]

/-- Replacement `timestamp::timestamptz \1 \2`. -/
def tmplTimestampCompare : List TItem :=
  [.lit "timestamp::timestamptz ", .ref 1, .lit " ", .ref 2]

/-- Pattern `ORDER BY\s+timestamp\b(?!::)`. -/
def patOrderTimestamp : RE :=
  rseq [.lit "ORDER BY", .plus true wsp, .lit "timestamp", .bnd, .look false (.lit "::")]

/-- Replacement `ORDER BY timestamp::timestamptz`. -/
def tmplOrderTimestamp : List TItem := [.lit "ORDER BY timestamp::timestamptz"]

/-- Pattern `GROUP BY\s+timestamp\b(?!::)`. -/
def patGroupTimestamp : RE :=
  rseq [.lit "GROUP BY", .plus true wsp, .lit "timestamp", .bnd, .look false (.lit "::")]

/-- Replacement `GROUP BY timestamp::timestamptz`. -/
def tmplGroupTimestamp : List TItem := [.lit "GROUP BY timestamp::timestamptz"]

/-- The `common_fixes` list of `validate_and_fix_query`, in source order. -/
def common_fixes : List (RE × List TItem) :=
  [(patSelectFinalStatus, tmplSelectFinalStatus),
   (patWhereFinalStatus, tmplWhereFinalStatus),
   (patOrderFinalStatus, tmplOrderFinalStatus),
   (patWhereSuccessRate, tmplWhereSuccessRate),
   (patWhereCount, tmplWhereCount),
   (patFromSummaryTable, tmplFromSummaryTable)]

/-- The `timestamp_fixes` list of `validate_and_fix_query`, in source order. -/
def timestamp_fixes : List (RE × List TItem) :=
  [(patTimestampCompare, tmplTimestampCompare),
   (patOrderTimestamp, tmplOrderTimestamp),
   (patGroupTimestamp, tmplGroupTimestamp)]

/-- `validate_and_fix_query` from `src/api/database/queries.py`: apply the six
computed-column fixes and then the three timestamp-cast fixes, each as a
global case-insensitive `re.sub`. -/
def validate_and_fix_query (sql_query : String) : String :=
  codesToStr
    ((common_fixes ++ timestamp_fixes).foldl (fun q pr => pySubCodes pr.1 pr.2 q)
      (strCodes sql_query))

/-! ## Configuration (`src/api/config.py`) -/

/-- `MAX_QUERY_RESULTS = 1000` — result cap appended as a `LIMIT` clause. -/
def MAX_QUERY_RESULTS : Nat := 1000

/-- `TRANSACTION_COLUMNS` from `src/api/config.py`: the fixed column-name to
description mapping of the transactions table, in source order. -/
def TRANSACTION_COLUMNS : List (String × String) :=
  [("account_id", "string - Unique identifier for the account"),
   ("affected_service", "string - Service affected by the transaction"),
   ("alert_description", "string - Description of any alerts"),
   ("aml_risk_score", "numeric - Anti-money laundering risk score"),
   ("auto_retry_enabled", "boolean - Whether auto retry is enabled"),
   ("balance_after", "numeric - Account balance after transaction"),
   ("balance_before", "numeric - Account balance before transaction"),
   ("block_hash", "string - Blockchain block hash"),
   ("block_number", "integer - Blockchain block number"),
   ("bridge_fee_bps", "numeric - Bridge fee in basis points"),
   ("bridge_protocol", "string - Bridge protocol used"),
   ("confirmations", "integer - Number of confirmations"),
   ("credit_amount", "numeric - Amount credited"),
   ("crypto_amount", "numeric - Amount in cryptocurrency"),
   ("crypto_token", "string - Type of cryptocurrency token"),
   ("debit_amount", "numeric - Amount debited"),
   ("defi_protocol", "string - DeFi protocol used"),
   ("dest_chain_id", "integer - Destination chain ID"),
   ("document_types", "string - Types of documents involved"),
   ("error_code", "string - Error code if any"),
   ("error_message", "string - Error message if any"),
   ("estimated_impact", "string - Estimated impact of the transaction"),
   ("event_index", "integer - Index of the event"),
   ("event_type", "string - Type of event (e.g., OfframpInitiated, CryptoLockConfirmed)"),
   ("exchange_rate", "numeric - Exchange rate used"),
   ("fiat_amount", "numeric - Amount in fiat currency"),
   ("fiat_currency", "string - Type of fiat currency (e.g., USD, GBP)"),
   ("flow_type", "string - Type of flow (e.g., crypto_to_fiat_success)"),
   ("from_address", "string - Source address"),
   ("from_network", "string - Source network"),
   ("gas_cost_native", "numeric - Gas cost in native currency"),
   ("gas_price_gwei", "numeric - Gas price in Gwei"),
   ("gas_used", "integer - Amount of gas used"),
   ("incident_id", "string - Incident identifier"),
   ("kyc_provider", "string - KYC provider"),
   ("kyc_session_id", "string - KYC session identifier"),
   ("kyc_status", "string - KYC status (e.g., verified)"),
   ("ledger_entry_id", "string - Ledger entry identifier"),
   ("ledger_entry_type", "string - Type of ledger entry"),
   ("ledger_reference", "string - Ledger reference"),
   ("lp_fee_bps", "numeric - Liquidity provider fee in basis points"),
   ("merkle_root", "string - Merkle root hash"),
   ("min_received", "numeric - Minimum amount received"),
   ("mitigation_steps", "string - Steps taken for mitigation"),
   ("network", "string - Blockchain network"),
   ("next_retry_in", "string - Next retry time"),
   ("oncall_team", "string - On-call team responsible"),
   ("pep_check", "string - Politically exposed person check result"),
   ("pool_address", "string - Pool address"),
   ("proof_hash", "string - Proof hash"),
   ("protocol_network", "string - Protocol network"),
   ("protocol_tvl", "numeric - Total value locked in protocol"),
   ("protocol_type", "string - Type of protocol"),
   ("provider", "string - Service provider"),
   ("relay_node", "string - Relay node"),
   ("retry_count", "integer - Number of retries"),
   ("risk_score", "numeric - Risk score"),
   ("sanctions_check", "string - Sanctions check result"),
   ("severity", "string - Severity level"),
   ("sla_breach", "boolean - Whether SLA was breached"),
   ("slippage_tolerance", "numeric - Slippage tolerance"),
   ("source_chain_id", "integer - Source chain ID"),
   ("timestamp", "timestamp - Time of the transaction"),
   ("to_address", "string - Destination address"),
   ("to_network", "string - Destination network"),
   ("transaction_id", "string - Unique transaction identifier"),
   ("tx_hash", "string - Transaction hash"),
   ("tx_status", "string - Transaction status (e.g., confirmed, pending)"),
   ("user_id", "string - User identifier"),
   ("user_tier", "string - User tier (e.g., silver, gold)"),
   ("verification_level", "string - Verification level")]

/-- `json.dumps(d, indent=2)` for a flat string-to-string dictionary whose
keys and values need no JSON escaping (true of `TRANSACTION_COLUMNS`):
opening brace, one `  "key": "value"` line per entry joined by commas, and
a closing brace. -/
def jsonDumpsIndent2 (kvs : List (String × String)) : String :=
  "\x7b\n" ++
    String.intercalate ",\n"
      (kvs.map (fun kv => "  \"" ++ kv.1 ++ "\": \"" ++ kv.2 ++ "\"")) ++
  "\n\x7d"

/-- The augmented prompt built in step 2 of `handle_chat_query`
(`src/api/routers/chat.py`): the user query followed by the dataset columns
as indented JSON, inside the f-string's triple-quoted skeleton. -/
def augmentedQuery (query : String) : String :=
  "\n        User Query: " ++ query ++
  "\n        Available Dataset Columns: " ++ jsonDumpsIndent2 TRANSACTION_COLUMNS ++
  "\n        Please generate a PostgreSQL query to answer this question.\n        "

/-! ## Exceptions, call outcomes and the timeout wrapper -/

/-- FastAPI's `HTTPException`, as raised throughout the routers. -/
structure HTTPExc where
  status : Nat
  detail : String
deriving DecidableEq, Repr

/-- A Python exception as seen by the routers' `except` clauses: either an
`HTTPException` or any other exception (carrying its message). -/
inductive PyErr where
  | http (e : HTTPExc) : PyErr
  | exc (msg : String) : PyErr
deriving DecidableEq, Repr

/-- `str(e)` for a FastAPI `HTTPException`: `"<status>: <detail>"`. -/
def strHTTP (e : HTTPExc) : String := toString e.status ++ ": " ++ e.detail

/-- The outcome of one awaited external call: a value, expiry of the
`asyncio.wait_for` budget, or an exception raised by the call itself. -/
inductive Outcome (α : Type) where
  | ok (a : α) : Outcome α
  | timeout : Outcome α
  | raise (e : PyErr) : Outcome α

/-- `with_timeout` from `src/api/database/queries.py` (the identical copy in
`src/api/routers/transactions.py` behaves the same): an
`asyncio.TimeoutError` becomes `HTTPException(408, "<operation> timed out.
Please try a simpler query or check your connection.")`; every other result
passes through. -/
def with_timeoutM {α : Type} (o : Outcome α) (operation_name : String) : Except PyErr α :=
  match o with
  | .ok a => .ok a
  | .timeout =>
    .error (.http ⟨408, operation_name ++ " timed out. Please try a simpler query or check your connection."⟩)
  | .raise e => .error e

/-! ## The query executor (`execute_query` in `src/api/database/queries.py`)

Result rows are opaque to every property in this development; they are
represented by an opaque carrier. -/

/-- Opaque carrier for one result row (`dict(row)` in the source). -/
abbrev Row := Nat

/-- What the store does with one fetch: rows, a timeout of the
`asyncio.wait_for` budget, or a database error with a message. -/
inductive FetchResult where
  | rows (rs : List Row) : FetchResult
  | timeout : FetchResult
  | dbError (msg : String) : FetchResult

/-- The row-cap step of `execute_query`: when the upper-cased query contains
neither the substring `LIMIT` nor the substring `COUNT`, strip trailing
semicolons and append ` LIMIT 1000;`. -/
def limitedQuery (sql_query : String) : String :=
  if !(containsStr (pyUpper sql_query) "LIMIT") && !(containsStr (pyUpper sql_query) "COUNT") then
    rstripChar sql_query ';' ++ " LIMIT " ++ toString MAX_QUERY_RESULTS ++ ";"
  else sql_query

/-- The computed-column test of `execute_query`'s `except Exception` handler:
the lower-cased message mentions `column`, `does not exist`, and one of the
known computed names. -/
def computedColumnCheck (error_msg : String) : Bool :=
  let m := pyLower error_msg
  containsStr m "column" && containsStr m "does not exist" &&
    (containsStr m "final_status" || containsStr m "success_rate" || containsStr m "count")

/-- The detail of the distinguished computed-column `HTTPException(400)`. -/
def computedColumnDetail : String :=
  "Query references a computed column from previous conversation. Please rephrase your question - I'll generate a fresh query with proper column references."

/-- `execute_query`: build the limited query, fetch it, and translate
failures.  A fetch timeout raises `HTTPException(408, ...)` inside
`with_timeout`; that exception is itself an `Exception`, so it is caught by
`execute_query`'s own `except Exception` handler (the dedicated
`except asyncio.TimeoutError` clause is unreachable) and re-raised as
`HTTPException(500, "Failed to execute query: 408: ...")` after the
computed-column test fails on its text.  A database error is translated to
the distinguished `HTTPException(400)` when `computedColumnCheck` accepts
its message, else to `HTTPException(500)`. -/
def execute_query (fetch : String → FetchResult) (sql_query : String) :
    Except PyErr (List Row) :=
  let lq := limitedQuery sql_query
  match fetch lq with
  | .rows rs => .ok rs
  | .timeout =>
    let msg := strHTTP ⟨408, "Database query execution timed out. Please try a simpler query or check your connection."⟩
    if computedColumnCheck msg then .error (.http ⟨400, computedColumnDetail⟩)
    else .error (.http ⟨500, "Failed to execute query: " ++ msg⟩)
  | .dbError msg =>
    if computedColumnCheck msg then .error (.http ⟨400, computedColumnDetail⟩)
    else .error (.http ⟨500, "Failed to execute query: " ++ msg⟩)

/-! ## Conversation memory (`src/api/ai/agents.py`) -/

/-- Opaque carrier for one `ModelMessage` of the ephemeral history. -/
abbrev Msg := Nat

/-- `keep_recent_messages`: when more than 8 messages, keep the first message
(the system framing) plus the last 7; otherwise return the list unchanged.
(The source's inner `if messages:` and `if len(messages) > 1` guards are
subsumed: a list longer than 8 is nonempty and longer than 1, so `[messages[0]]
+ messages[-7:]` is always the branch taken; it is written here as
`take 1 ++ drop (length - 7)`.) -/
def keep_recent_messages (messages : List Msg) : List Msg :=
  if messages.length > 8 then
    messages.take 1 ++ messages.drop (messages.length - 7)
  else messages

/-! ## Response and request models (`src/api/models/schemas.py`) -/

/-- `ChatQueryRequest`: query text, chat mode (`"new"` or `"existing"`), and
optional chat id. -/
structure ChatQueryRequest where
  query : String
  chat_type : String
  chat_id : Option String
deriving DecidableEq, Repr

/-- `SQLGenerationResponse`: generated SQL plus reasoning. -/
structure SQLGenerationResponse where
  sql_query : String
  reasoning : String
deriving DecidableEq, Repr

/-- `DataSummaryResponse`: narrative summary, insights, optional status and
recommendation. -/
structure DataSummaryResponse where
  summary : String
  key_insights : List String
  transaction_status : Option String
  recommendation : Option String
deriving DecidableEq, Repr

/-- `ResponseSummaryAgent`: condensed summary plus metadata string. -/
structure ResponseSummaryAgent where
  summary : String
  metadata : String
deriving DecidableEq, Repr

/-- `QueryTypeResponse`: the classifier's single enum-like field. -/
structure QueryTypeResponse where
  query_type : String
deriving DecidableEq, Repr

/-- `ChatResponse`: the structured result of the main chat endpoint.
`execution_time_ms` is wall-clock derived in the source; it is carried here
as an environment-supplied number. -/
structure ChatResponse where
  success : Bool
  chat_id : String
  query : String
  sql_query : String
  data : List Row
  summary : String
  insights : List String
  recommendation : Option String
  response_summary : Option String
  execution_time_ms : Nat
  record_count : Nat
deriving DecidableEq, Repr

/-- `ApiResponse`: the generic wrapper used by the transaction endpoints.
Its `data` field is `Any` in the source; the webhook stores the analysis
summary there, which is what the carrier keeps. -/
structure ApiResponse where
  success : Bool
  message : String
  data : Option String
  error : Option String
deriving DecidableEq, Repr

/-- `GrafanaWebhookRequest`: alert state plus message (the transaction id). -/
structure GrafanaWebhookRequest where
  state : String
  message : String
deriving DecidableEq, Repr

/-- `FailedTransactionRetryResponse` has a single `summary` field.  (The
timeout fallback in the webhook passes extra `key_insights` and
`recommendation` keyword arguments, which pydantic ignores.) -/
structure FailedTransactionRetryResponse where
  summary : String
deriving DecidableEq, Repr

/-! ## The chat pipeline (`src/api/routers/chat.py`)

`handle_chat_query` is modelled as a pure function of a `ChatEnv` fixing
the outcome of every external interaction: chat-existence checks, history
loading, the four model agents and the store fetch.  Its result is either a
returned `ChatResponse` or a raised exception, paired with the trace of
SQL-generation and query-execution calls (the events the retry claims are
about). -/

/-- Environment: the outcome of every external call one request can make. -/
structure ChatEnv where
  /-- `create_new_chat()`: the fresh uuid. -/
  newChatId : String
  /-- `chat_exists_in_db` (absorbs its own errors, returning `False`). -/
  chatExistsInDb : String → Bool
  /-- `chat_id in chat_message_cache`. -/
  chatInCache : String → Bool
  /-- `load_chat_messages_from_db` (may raise: its summary fetch is not
  guarded by a `try`). -/
  loadMessages : String → Except PyErr (List Msg)
  /-- outcome of the `query_type_agent.run` call. -/
  classify : Outcome QueryTypeResponse
  /-- outcome of the first `sql_agent.run` call. -/
  gen1 : Outcome SQLGenerationResponse
  /-- outcome of the history-free retry `sql_agent.run` call. -/
  genRetry : Outcome SQLGenerationResponse
  /-- the store: what `conn.fetch` does with each query text. -/
  fetch : String → FetchResult
  /-- outcome of the `summary_agent.run` call on the SQL path. -/
  summarize : Outcome DataSummaryResponse
  /-- outcome of the `response_summary_agent.run` call on the SQL path. -/
  respSummary : Outcome ResponseSummaryAgent
  /-- outcome of the `summary_agent.run` call on the simple path. -/
  simpleGen : Outcome DataSummaryResponse
  /-- outcome of the `response_summary_agent.run` call on the simple path. -/
  simpleRespSummary : Outcome ResponseSummaryAgent
  /-- wall-clock milliseconds reported for this request. -/
  elapsedMs : Nat

/-- Trace events: the prompts and histories of SQL-generation calls and the
query texts passed to `execute_query`. -/
inductive Event where
  | genCall (prompt : String) (history : List Msg) : Event
  | execCall (sql : String) : Event
deriving DecidableEq, Repr

/-- Step 1 of `handle_chat_query` (lines 155-170): classify, defaulting to
`"sql"` on a 408 `HTTPException` (the timeout) and on any non-HTTP
exception, and re-raising any other `HTTPException`. -/
def classifyStep (o : Outcome QueryTypeResponse) : Except PyErr String :=
  match with_timeoutM o "Query type classification" with
  | .ok r => .ok r.query_type
  | .error (.http e) => if e.status = 408 then .ok "sql" else .error (.http e)
  | .error (.exc _) => .ok "sql"

/-- Chat-context setup of `handle_chat_query` (lines 136-152): a new chat
gets a fresh id and empty history; an existing chat requires a `chat_id` —
Python's `if not request.chat_id:` treats both `None` and the empty string
as missing (`HTTPException(400)`) — must exist in the store or the
in-memory cache (else `HTTPException(404)`), and loads its history. -/
def chatSetup (env : ChatEnv) (req : ChatQueryRequest) :
    Except PyErr (String × List Msg) :=
  if req.chat_type = "new" then .ok (env.newChatId, [])
  else
    match req.chat_id with
    | none => .error (.http ⟨400, "chat_id is required when chat_type is 'existing'"⟩)
    | some cid =>
      if cid = "" then
        .error (.http ⟨400, "chat_id is required when chat_type is 'existing'"⟩)
      else if env.chatExistsInDb cid || env.chatInCache cid then
        match env.loadMessages cid with
        | .ok ms => .ok (cid, ms)
        | .error e => .error e
      else .error (.http ⟨404, "Chat " ++ cid ++ " not found"⟩)

/-- The `DataSummaryResponse` built by the simple path when its generation
call times out (lines 41-45). -/
def fallbackSimpleSummary : DataSummaryResponse :=
  { summary := "I'm here to help with your payment and transaction questions. Could you please rephrase your question?"
    key_insights := ["Response generation timed out"]
    transaction_status := none
    recommendation := some "Please try asking your question again or be more specific." }

/-- The response-summary step shared by both paths (lines 80-92 and
297-324): the agent's `summary + " " + str(metadata)` on success, a
truncated-prose fallback on timeout, and an error string on any other
exception — this step never raises. -/
def responseSummaryStep (o : Outcome ResponseSummaryAgent) (summaryText : String) : String :=
  match with_timeoutM o "Response summary generation" with
  | .ok r => r.summary ++ " " ++ r.metadata
  | .error (.http e) =>
    if e.status = 408 then
      "Summary: " ++ pyTake summaryText 100 ++ "... (Summary generation timed out)"
    else "Summary generation failed: " ++ strHTTP e
  | .error (.exc m) => "Summary generation error: " ++ m

/-- `handle_simple_llm_query` (lines 19-124): generate a conversational
answer (timeout degrades to `fallbackSimpleSummary`, a non-408
`HTTPException` re-raises, any other exception falls to the handler's own
`except Exception`, which returns a `success := false` response), then a
response summary; every returned response has empty SQL, empty data and
zero record count.  The chat-history update is swallowed (`except: pass`)
and has no effect on the result. -/
def handle_simple_llm_query (env : ChatEnv) (req : ChatQueryRequest) (chat_id : String) :
    Except PyErr ChatResponse :=
  let inner : Except PyErr ChatResponse :=
    match with_timeoutM env.simpleGen "Simple query response generation" with
    | .error (.http e) =>
      if e.status = 408 then
        .ok { success := true, chat_id := chat_id, query := req.query, sql_query := "",
              data := [], summary := fallbackSimpleSummary.summary,
              insights := fallbackSimpleSummary.key_insights,
              recommendation := fallbackSimpleSummary.recommendation,
              response_summary := some (responseSummaryStep env.simpleRespSummary fallbackSimpleSummary.summary),
              execution_time_ms := env.elapsedMs, record_count := 0 }
      else .error (.http e)
    | .error (.exc m) => .error (.exc m)
    | .ok simple_response =>
      .ok { success := true, chat_id := chat_id, query := req.query, sql_query := "",
            data := [], summary := simple_response.summary,
            insights := simple_response.key_insights,
            recommendation := simple_response.recommendation,
            response_summary := some (responseSummaryStep env.simpleRespSummary simple_response.summary),
            execution_time_ms := env.elapsedMs, record_count := 0 }
  match inner with
  | .ok r => .ok r
  | .error (.http e) => .error (.http e)
  | .error (.exc m) =>
    .ok { success := false, chat_id := chat_id, query := req.query, sql_query := "",
          data := [], summary := "Error handling simple query: " ++ m, insights := [],
          recommendation := none, response_summary := none,
          execution_time_ms := env.elapsedMs, record_count := 0 }

/-- The no-data `DataSummaryResponse` (lines 254-258). -/
def noDataSummary : DataSummaryResponse :=
  { summary := "No data found matching the query criteria."
    key_insights := ["No transactions found for the specified criteria"]
    transaction_status := none
    recommendation := some "Try adjusting search parameters or check transaction IDs" }

/-- The fallback `DataSummaryResponse` built when summarization times out
(lines 269-273), parameterized by the row count. -/
def basicSummary (n : Nat) : DataSummaryResponse :=
  { summary := "Query executed successfully. Retrieved " ++ toString n ++ " records."
    key_insights := ["Found " ++ toString n ++ " matching records"]
    transaction_status := none
    recommendation := some "Data retrieved successfully. Summary generation timed out." }

/-- Steps 5-7 of the SQL path (lines 233-337), after data is available:
summarize (timeout degrades to `basicSummary`; with no rows the prepared
`noDataSummary` is used when the call succeeds; a non-408 `HTTPException`
re-raises; any other exception propagates to the outer handler), build the
response, attach the response summary, swallow the history update. -/
def afterData (env : ChatEnv) (req : ChatQueryRequest) (chat_id sqlQ : String)
    (data : List Row) : Except PyErr ChatResponse :=
  let sumOut : Except PyErr DataSummaryResponse :=
    match with_timeoutM env.summarize "AI summary generation" with
    | .ok s => .ok (if data.isEmpty then noDataSummary else s)
    | .error (.http e) =>
      if e.status = 408 then .ok (basicSummary data.length) else .error (PyErr.http e)
    | .error (.exc m) => .error (PyErr.exc m)
  match sumOut with
  | .error e => .error e
  | .ok summary_response =>
    .ok { success := true, chat_id := chat_id, query := req.query, sql_query := sqlQ,
          data := data, summary := summary_response.summary,
          insights := summary_response.key_insights,
          recommendation := summary_response.recommendation,
          response_summary := some (responseSummaryStep env.respSummary summary_response.summary),
          execution_time_ms := env.elapsedMs, record_count := data.length }

/-- Steps 2-7 of the SQL path (lines 176-337): build the augmented prompt,
generate SQL (timeout re-raised as a dedicated 408; other `HTTPException`s
re-raised; other exceptions propagate), repair it, execute it, and on the
distinguished computed-column `HTTPException(400)` regenerate once with the
same augmented prompt and no message history, repair and re-execute with no
further retry.  The trace records every generation call (prompt and
history) and every execution call (query text). -/
def sqlBranch (env : ChatEnv) (req : ChatQueryRequest) (chat_id : String)
    (history : List Msg) : Except PyErr ChatResponse × List Event :=
  let aug := augmentedQuery req.query
  let genEv : Event := .genCall aug history
  match with_timeoutM env.gen1 "SQL generation" with
  | .error (.http e) =>
    if e.status = 408 then
      (.error (.http ⟨408, "AI query generation timed out. Please try a simpler question."⟩), [genEv])
    else (.error (.http e), [genEv])
  | .error (.exc m) => (.error (.exc m), [genEv])
  | .ok sqlResp =>
    let validated := validate_and_fix_query sqlResp.sql_query
    match execute_query env.fetch validated with
    | .ok data => (afterData env req chat_id validated data, [genEv, .execCall validated])
    | .error (.exc m) => (.error (.exc m), [genEv, .execCall validated])
    | .error (.http e) =>
      if e.status = 400 ∧ containsStr e.detail "computed column" then
        match with_timeoutM env.genRetry "Fresh SQL generation" with
        | .error er => (.error er, [genEv, .execCall validated, .genCall aug []])
        | .ok freshResp =>
          let fq := validate_and_fix_query freshResp.sql_query
          match execute_query env.fetch fq with
          | .ok data =>
            (afterData env req chat_id fq data,
             [genEv, .execCall validated, .genCall aug [], .execCall fq])
          | .error e2 =>
            (.error e2, [genEv, .execCall validated, .genCall aug [], .execCall fq])
      else (.error (.http e), [genEv, .execCall validated])

/-- The body of `handle_chat_query` before its outer `except` clauses:
chat setup, classification, then the simple or the SQL branch. -/
def handleInner (env : ChatEnv) (req : ChatQueryRequest) :
    Except PyErr ChatResponse × List Event :=
  match chatSetup env req with
  | .error e => (.error e, [])
  | .ok (chat_id, history) =>
    match classifyStep env.classify with
    | .error e => (.error e, [])
    | .ok query_type =>
      if query_type = "simple" then (handle_simple_llm_query env req chat_id, [])
      else sqlBranch env req chat_id history

/-- The `success := false` response built by the outer `except Exception`
handler (lines 341-356).  Python's `request.chat_id or "unknown"` treats
both `None` and the empty string as missing. -/
def errorChatResponse (req : ChatQueryRequest) (m : String) (ems : Nat) : ChatResponse :=
  { success := false
    chat_id := match req.chat_id with
               | none => "unknown"
               | some c => if c = "" then "unknown" else c
    query := req.query, sql_query := "", data := [], summary := "Error: " ++ m,
    insights := [], recommendation := none, response_summary := none,
    execution_time_ms := ems, record_count := 0 }

/-- The outer boundary of `handle_chat_query` (lines 339-356):
`except HTTPException: raise` re-raises HTTP exceptions unchanged, while
`except Exception` converts every other exception into a `success := false`
`ChatResponse`. -/
def outerBoundary (req : ChatQueryRequest) (ems : Nat) :
    Except PyErr ChatResponse × List Event → Except PyErr ChatResponse × List Event
  | (.ok r, tr) => (.ok r, tr)
  | (.error (.http e), tr) => (.error (.http e), tr)
  | (.error (.exc m), tr) => (.ok (errorChatResponse req m ems), tr)

/-- `handle_chat_query` (`POST /query`): the full pipeline. -/
def handle_chat_query (env : ChatEnv) (req : ChatQueryRequest) :
    Except PyErr ChatResponse × List Event :=
  outerBoundary req env.elapsedMs (handleInner env req)

/-! ## The Grafana webhook (`grafana_webhook` in `src/api/routers/transactions.py`)

The endpoint imports the `jsonify` package and calls the module object as if
it were Flask's `jsonify` function.  A Python module object is not
callable, so every `return jsonify(...)` — the non-alerting acknowledgment,
the missing-transaction-id branch, and the outer `except Exception`
handler's own error return — raises `TypeError` instead of returning. -/

/-- The exception raised by calling the imported `jsonify` module object. -/
def moduleNotCallable : String := "TypeError: 'module' object is not callable"

/-- Downstream interactions of the webhook's failure-analysis path. -/
inductive WebhookEvent where
  | detailFetch (txnId : String) : WebhookEvent
  | agentRun : WebhookEvent
  | dbInsert (txnId : String) (summary : String) : WebhookEvent
  | slackNotify (txnId : String) (summary : String) : WebhookEvent
deriving DecidableEq, Repr

/-- Environment for one webhook request. -/
structure WebhookEnv where
  /-- `transaction_details_from_db` (absorbs its own errors, returning an
  empty result). -/
  details : String → List Row
  /-- outcome of the `failed_transaction_retry_agent.run` call. -/
  agent : Outcome FailedTransactionRetryResponse
  /-- whether `insert_transaction_details_to_db` succeeds.  The insert
  swallows its own errors and the webhook wraps it in a further
  `try/except`, so this can never influence the result. -/
  insertOk : Bool
  /-- whether `send_alert_to_slack` succeeds.  The call is wrapped in
  `try/except`, so a notification failure never influences the result. -/
  slackOk : Bool

/-- The `FailedTransactionRetryResponse` built when the analysis agent times
out (lines 211-215; the extra keyword arguments are ignored by pydantic). -/
def fallbackRetrySummary : FailedTransactionRetryResponse :=
  { summary := "I'm here to help with your payment and transaction questions. Could you please rephrase your question?" }

/-- `grafana_webhook` (`POST /webhook`): only state `"alerting"` enters the
failure-analysis path (detail fetch, agent run with timeout fallback,
best-effort persistence, best-effort Slack notification, then a successful
`ApiResponse`).  Every other state takes the `return jsonify(...), 200`
acknowledgment, which raises `TypeError`; the outer `except Exception`
handler then executes `return jsonify(...), 500`, raising the same
`TypeError` again, so the request fails with an unhandled exception.  The
trace records the downstream calls that were made. -/
def grafana_webhook (env : WebhookEnv) (req : GrafanaWebhookRequest) :
    Except PyErr ApiResponse × List WebhookEvent :=
  let body : Except PyErr ApiResponse × List WebhookEvent :=
    if req.state ≠ "alerting" then
      -- `return jsonify({"status": "ignored", ...}), 200` raises TypeError
      (.error (.exc moduleNotCallable), [])
    else if req.message = "" then
      -- `return jsonify({"status": "error", ...}), 400` raises TypeError
      (.error (.exc moduleNotCallable), [])
    else
      let tid := req.message
      let _details := env.details tid
      let ev1 : List WebhookEvent := [.detailFetch tid, .agentRun]
      let proceed : FailedTransactionRetryResponse →
          Except PyErr ApiResponse × List WebhookEvent := fun r =>
        (.ok { success := true, message := "Alert processed and analyzed.",
               data := some r.summary, error := none },
         ev1 ++ [.dbInsert tid r.summary, .slackNotify tid r.summary])
      match with_timeoutM env.agent "Failed transaction retry agent" with
      | .ok r => proceed r
      | .error (.http e) =>
        if e.status = 408 then proceed fallbackRetrySummary
        else (.error (.http e), ev1)
      | .error (.exc m) => (.error (.exc m), ev1)
  match body with
  | (.ok r, tr) => (.ok r, tr)
  | (.error _, tr) =>
    -- outer `except Exception`: its own `jsonify` call raises TypeError
    (.error (.exc moduleNotCallable), tr)

/-! ## Spec-side readings used by refinement comparisons

These definitions follow the specification's wording (not the code) and are
only used to exhibit where the code's substring tests diverge from it. -/

/-- Spec wording: the query has "an existing limiting clause" — read
generously as the upper-cased text containing `LIMIT` at all. -/
def specHasLimitingClause (q : String) : Bool := containsStr (pyUpper q) "LIMIT"

/-- Spec wording: the query contains "an aggregate count operation" — read
generously as the upper-cased text containing an aggregate call `COUNT(`. -/
def specHasAggregateCountOp (q : String) : Bool := containsStr (pyUpper q) "COUNT("

/-! ## Sample environments and inputs for the claims -/

/-- A benign environment: every external call succeeds. -/
def benignChatEnv : ChatEnv :=
  { newChatId := "chat-new-1"
    chatExistsInDb := fun _ => true
    chatInCache := fun _ => false
    loadMessages := fun _ => .ok []
    classify := .ok ⟨"sql"⟩
    gen1 := .ok ⟨"SELECT 1", "trivial"⟩
    genRetry := .ok ⟨"SELECT 2", "fresh"⟩
    fetch := fun _ => .rows []
    summarize := .ok ⟨"summary", ["insight"], none, none⟩
    respSummary := .ok ⟨"condensed", "metadata"⟩
    simpleGen := .ok ⟨"simple answer", ["simple insight"], none, some "ask on"⟩
    simpleRespSummary := .ok ⟨"condensed simple", "metadata"⟩
    elapsedMs := 5 }

/-- Environment whose SQL-generation call times out. -/
def c1Env : ChatEnv := { benignChatEnv with gen1 := .timeout }

/-- Environment whose classification call raises a non-408 `HTTPException`. -/
def c6Env : ChatEnv :=
  { benignChatEnv with classify := .raise (.http ⟨500, "classifier backend error"⟩) }

/-- A query with no limiting clause and no aggregate count operation whose
text nevertheless contains `COUNT` (inside `account_id`). -/
def c3Query : String := "SELECT * FROM transactions WHERE account_id = 'abc'"

/-- More rows than the configured cap. -/
def c3BigRows : List Row := List.replicate 1001 0

/-- A query selecting `final_status` twice in a comma list: the source's
first rewrite only fixes the last occurrence per pass. -/
def c4Input : String := "SELECT final_status, final_status FROM t"

/-- Representative SQL inputs exercising each repair rule. -/
def c4Samples : List String :=
  ["SELECT final_status FROM transactions",
   "WHERE final_status = 'SUCCESSFUL'",
   "ORDER BY final_status",
   "WHERE success_rate > 0.9",
   "WHERE count > 10",
   "WHERE timestamp > NOW()",
   "ORDER BY timestamp DESC",
   "GROUP BY timestamp",
   "SELECT error_code FROM transactions WHERE error_code IS NOT NULL LIMIT 10"]

/-- A bare timestamp comparison whose right-hand side is a timestamp string
in the store's own format — it contains colons. -/
def c5Input : String := "SELECT * FROM transactions WHERE timestamp = '2025-07-14T00:01:54'"

/-- Comparison operators built from `<`, `>`, `=`. -/
def c5CastOps : List String := ["<", ">", "=", "<=", ">=", "<>"]

/-- Query contexts preceding the timestamp comparison in the C5 family. -/
def c5Prefixes : List String := ["WHERE ", "SELECT * FROM transactions WHERE "]

/-- Colon-free right-hand sides of the C5 family. -/
def c5Rhss : List String := ["5", "'2024-01-01'", "NOW()"]

/-- The single-character comparison operators, for the C5 uncast family. -/
def c5SingleOps : List String := ["<", ">", "="]

/-- The single-character comparison operators named by the claim. -/
def c10Ops : List String := ["<", ">", "="]

/-- Query contexts preceding the `WHERE` clause in the C10 family. -/
def c10Bases : List String := ["", "SELECT * FROM transactions "]

/-- Right-hand sides of the C10 family. -/
def c10Rhss : List String := ["10", "0.5"]

/-- The inline aggregate subquery substituted for `transaction_summary`. -/
def transactionSummarySubquery : String :=
  "(WITH latest_events AS (SELECT *, ROW_NUMBER() OVER (PARTITION BY transaction_id ORDER BY timestamp::timestamptz DESC) as rn FROM transactions) SELECT COUNT(*) as total_transactions FROM latest_events WHERE rn = 1) as transaction_summary"

/-- Webhook environment: detail rows exist, the analysis agent succeeds, the
Slack notification fails. -/
def c9Env : WebhookEnv :=
  { details := fun _ => [7]
    agent := .ok ⟨"analysis"⟩
    insertOk := true
    slackOk := false }

/-- Environment classified as `simple` with all calls succeeding. -/
def c7Env : ChatEnv := { benignChatEnv with classify := .ok ⟨"simple"⟩ }

/-! ## Theorems -/

/-- Helper: one application of hard truncation always leaves at most 8
messages. -/
theorem keep_recent_messages_length_le (l : List Msg) :
    (keep_recent_messages l).length ≤ 8 := by
  unfold keep_recent_messages
  split
  · next h =>
    simp only [List.length_append, List.length_take, List.length_drop]
    omega
  · next h => omega

/-- C8: for every message list longer than 8, hard truncation returns the
first message followed by the last 7 (length exactly 8); lists of length at
most 8 are returned unchanged; and once hard truncation has been applied,
the history length never exceeds 8 under any number of further
applications. -/
theorem c8_keep_recent_messages_bound (l : List Msg) :
    (8 < l.length →
      keep_recent_messages l = l.take 1 ++ l.drop (l.length - 7) ∧
      (keep_recent_messages l).length = 8)
    ∧ (l.length ≤ 8 → keep_recent_messages l = l)
    ∧ ∀ n : Nat, (keep_recent_messages^[n] (keep_recent_messages l)).length ≤ 8 := by
  refine ⟨fun h => ⟨?_, ?_⟩, fun h => ?_, fun n => ?_⟩
  · unfold keep_recent_messages
    rw [if_pos h]
  · unfold keep_recent_messages
    rw [if_pos h]
    simp only [List.length_append, List.length_take, List.length_drop]
    omega
  · unfold keep_recent_messages
    rw [if_neg (by omega)]
  · induction n with
    | zero => simpa using keep_recent_messages_length_le l
    | succ n ih =>
      rw [Function.iterate_succ_apply']
      exact keep_recent_messages_length_le _

/-- Witness for C8 at a concrete 10-message history. -/
theorem c8_keep_recent_messages_bound_witness :
    8 < ([0, 1, 2, 3, 4, 5, 6, 7, 8, 9] : List Msg).length ∧
      keep_recent_messages [0, 1, 2, 3, 4, 5, 6, 7, 8, 9] =
        ([0, 1, 2, 3, 4, 5, 6, 7, 8, 9] : List Msg).take 1 ++
          ([0, 1, 2, 3, 4, 5, 6, 7, 8, 9] : List Msg).drop
            (([0, 1, 2, 3, 4, 5, 6, 7, 8, 9] : List Msg).length - 7) ∧
      (keep_recent_messages [0, 1, 2, 3, 4, 5, 6, 7, 8, 9]).length = 8 :=
  ⟨by decide, (c8_keep_recent_messages_bound [0, 1, 2, 3, 4, 5, 6, 7, 8, 9]).1 (by decide)⟩

/-- C9: a webhook payload whose state is not `alerting` triggers no
downstream call, but — because the imported `jsonify` module object is not
callable — the intended acknowledgment raises `TypeError` and the request
fails instead of being acknowledged; a payload in the `alerting` state
triggers the detail fetch, the analysis-agent run, the persistence attempt
and the notification attempt, and the response succeeds regardless of
whether persistence or notification succeed. -/
theorem c9_webhook_states_and_notification :
    grafana_webhook c9Env ⟨"ok", "txn_1"⟩ = (.error (.exc moduleNotCallable), [])
    ∧ (∀ ins sl : Bool,
        grafana_webhook { c9Env with insertOk := ins, slackOk := sl } ⟨"alerting", "txn_1"⟩ =
          (.ok ⟨true, "Alert processed and analyzed.", some "analysis", none⟩,
           [.detailFetch "txn_1", .agentRun, .dbInsert "txn_1" "analysis",
            .slackNotify "txn_1" "analysis"])) :=
  ⟨rfl, fun _ _ => rfl⟩

/-- C1 (counterexample): when SQL generation times out, the main chat
endpoint raises `HTTPException(408)` instead of returning a structured
response — an exception escapes the pipeline's outer boundary. -/
theorem c1_generation_timeout_escapes :
    (handle_chat_query c1Env ⟨"How many transactions failed?", "new", none⟩).1 =
      .error (.http ⟨408, "AI query generation timed out. Please try a simpler question."⟩) :=
  rfl

/-- C1 (amended): for every outcome of the external calls, the endpoint
either returns a `ChatResponse` or re-raises an `HTTPException`; an
exception that is not an `HTTPException` never escapes (the outer
`except Exception` converts it into a `success := false` response). -/
theorem c1_amended_only_http_exceptions_escape (env : ChatEnv) (req : ChatQueryRequest) :
    (∃ r, (handle_chat_query env req).1 = .ok r)
    ∨ (∃ e, (handle_chat_query env req).1 = .error (.http e)) := by
  unfold handle_chat_query
  rcases hres : handleInner env req with ⟨res, tr⟩
  rcases res with e | r
  · rcases e with e' | m
    · exact Or.inr ⟨e', rfl⟩
    · exact Or.inl ⟨errorChatResponse req m env.elapsedMs, rfl⟩
  · exact Or.inl ⟨r, rfl⟩

/-- C6 (counterexample): when the classification call raises an
`HTTPException` whose status is not 408, the orchestrator does not proceed
with the label `sql` — it re-raises the exception and the request is
dropped. -/
theorem c6_non_timeout_http_exception_propagates :
    (handle_chat_query c6Env ⟨"q", "new", none⟩).1 =
      .error (.http ⟨500, "classifier backend error"⟩) :=
  rfl

/-- C6 (amended): when classification times out, and when it raises any
exception that is not an `HTTPException`, the pipeline behaves exactly as
if classification had returned `sql`. -/
theorem c6_amended_timeout_and_generic_default_to_sql
    (env : ChatEnv) (req : ChatQueryRequest) (m : String) :
    handle_chat_query { env with classify := .timeout } req =
      handle_chat_query { env with classify := .ok ⟨"sql"⟩ } req
    ∧ handle_chat_query { env with classify := .raise (.exc m) } req =
      handle_chat_query { env with classify := .ok ⟨"sql"⟩ } req :=
  ⟨rfl, rfl⟩

/-- C3 (counterexample): `c3Query` has no limiting clause and no aggregate
count operation, yet — because `account_id` contains the substring `COUNT` —
the executor appends no `LIMIT` clause and returns however many rows the
store produces, here 1001 > 1000. -/
theorem c3_count_substring_defeats_row_cap :
    specHasLimitingClause c3Query = false
    ∧ specHasAggregateCountOp c3Query = false
    ∧ limitedQuery c3Query = c3Query
    ∧ execute_query (fun _ => .rows c3BigRows) c3Query = .ok c3BigRows
    ∧ MAX_QUERY_RESULTS < c3BigRows.length := by
  refine ⟨by decide, by decide, by decide, rfl, ?_⟩
  show MAX_QUERY_RESULTS < (List.replicate 1001 (0 : Row)).length
  rw [List.length_replicate]
  decide

/-- C3 (amended): when the upper-cased query contains neither the substring
`LIMIT` nor the substring `COUNT`, the executor strips trailing semicolons,
appends ` LIMIT 1000;`, and — provided the store honors the appended
clause — never returns more than 1000 rows.  (Queries containing those
substrings anywhere, including inside identifiers such as `account_id`, are
executed unchanged with no cap.) -/
theorem c3_amended_limit_appended_when_substrings_absent
    (q : String) (fetch : String → FetchResult)
    (hl : containsStr (pyUpper q) "LIMIT" = false)
    (hc : containsStr (pyUpper q) "COUNT" = false)
    (hcap : ∀ rs : List Row,
      fetch (rstripChar q ';' ++ " LIMIT " ++ toString MAX_QUERY_RESULTS ++ ";") = .rows rs →
      rs.length ≤ MAX_QUERY_RESULTS) :
    limitedQuery q = rstripChar q ';' ++ " LIMIT " ++ toString MAX_QUERY_RESULTS ++ ";"
    ∧ ∀ rs, execute_query fetch q = .ok rs → rs.length ≤ MAX_QUERY_RESULTS := by
  have hlq : limitedQuery q = rstripChar q ';' ++ " LIMIT " ++ toString MAX_QUERY_RESULTS ++ ";" := by
    unfold limitedQuery
    rw [hl, hc]
    simp
  refine ⟨hlq, fun rs h => ?_⟩
  simp only [execute_query, hlq] at h
  split at h
  · next rs' heq =>
    injection h with h2
    rw [← h2]
    exact hcap _ heq
  · split at h <;> cases h
  · split at h <;> cases h

/-- Witness for C3 (amended) at a concrete query and store. -/
theorem c3_amended_limit_appended_when_substrings_absent_witness :
    containsStr (pyUpper "SELECT * FROM transactions") "LIMIT" = false
    ∧ containsStr (pyUpper "SELECT * FROM transactions") "COUNT" = false
    ∧ (limitedQuery "SELECT * FROM transactions" =
        rstripChar "SELECT * FROM transactions" ';' ++ " LIMIT " ++ toString MAX_QUERY_RESULTS ++ ";"
      ∧ ∀ rs, execute_query (fun _ => FetchResult.rows []) "SELECT * FROM transactions" = .ok rs →
          rs.length ≤ MAX_QUERY_RESULTS) :=
  ⟨by decide, by decide,
   c3_amended_limit_appended_when_substrings_absent "SELECT * FROM transactions"
     (fun _ => FetchResult.rows []) (by decide) (by decide)
     (fun rs h => by injection h with h2; rw [← h2]; decide)⟩

/-- C4 (counterexample): the repair transform is not idempotent — a query
selecting `final_status` twice in a comma list is rewritten further by a
second application, because the first pass only rewrites the last
occurrence reachable by its pattern. -/
theorem c4_repair_not_idempotent :
    validate_and_fix_query (validate_and_fix_query c4Input) ≠ validate_and_fix_query c4Input := by
  decide

set_option maxHeartbeats 4000000 in
/-- C4 (amended): the repair transform is idempotent on representative SQL
inputs exercising each of its rewrite rules — though not on all inputs (see
the counterexample). -/
theorem c4_amended_idempotent_on_samples :
    c4Samples.all
      (fun s => validate_and_fix_query (validate_and_fix_query s) == validate_and_fix_query s) =
      true := by
  decide

/-- C5 (counterexample): a bare comparison on the `timestamp` column whose
right-hand side is a timestamp literal in the store's own format contains
colons, so the cast rewrite's `[^:]+?` can never reach a valid lookahead
and the comparison is left uncast. -/
theorem c5_colon_rhs_left_uncast :
    containsStr c5Input "timestamp = " = true
    ∧ containsStr c5Input "timestamp::timestamptz" = false
    ∧ validate_and_fix_query c5Input = c5Input := by
  refine ⟨by decide, by decide, by decide⟩

set_option maxHeartbeats 4000000 in
/-- C5 (amended, scoped to the stated family as the counterexample forces):
for every operator built from `<`, `>`, `=` (that is `<`, `>`, `=`, `<=`,
`>=`, `<>`), every context in `c5Prefixes` and every colon-free right-hand
side in `c5Rhss`, the repair transform casts the bare `timestamp`
comparison to `timestamp::timestamptz`; over the same operators and
contexts, comparisons that are already cast — and cast `ORDER BY` /
`GROUP BY` uses — are left unchanged; and comparisons using `!=`, or a
single-character operator against a colon-containing right-hand side (the
store's own timestamp format), are left uncast in every stated context. -/
theorem c5_amended_cast_families :
    (c5CastOps.all (fun op => c5Prefixes.all (fun pre => c5Rhss.all (fun rhs =>
      validate_and_fix_query (pre ++ "timestamp " ++ op ++ " " ++ rhs)
        == pre ++ "timestamp::timestamptz " ++ op ++ " " ++ rhs))) = true)
    ∧ (c5CastOps.all (fun op => c5Prefixes.all (fun pre =>
      validate_and_fix_query (pre ++ "timestamp::timestamptz " ++ op ++ " '2024-01-01'")
        == pre ++ "timestamp::timestamptz " ++ op ++ " '2024-01-01'")) = true)
    ∧ validate_and_fix_query "ORDER BY timestamp::timestamptz DESC" =
        "ORDER BY timestamp::timestamptz DESC"
    ∧ validate_and_fix_query "GROUP BY timestamp::timestamptz" = "GROUP BY timestamp::timestamptz"
    ∧ (c5SingleOps.all (fun op => c5Prefixes.all (fun pre =>
      validate_and_fix_query (pre ++ "timestamp " ++ op ++ " '2025-07-14T00:01:54'")
        == pre ++ "timestamp " ++ op ++ " '2025-07-14T00:01:54'")) = true)
    ∧ validate_and_fix_query "SELECT * FROM transactions WHERE timestamp != '2024-01-01'" =
        "SELECT * FROM transactions WHERE timestamp != '2024-01-01'"
    ∧ validate_and_fix_query "SELECT * FROM transactions WHERE timestamp != 5" =
        "SELECT * FROM transactions WHERE timestamp != 5" := by
  refine ⟨by decide, by decide, by decide, by decide, by decide, by decide, by decide⟩

/-- C10 (counterexample): on `WHERE count <= 10` — where `WHERE count` is
immediately followed by the comparison character `<` — the rewrite consumes
only the `<`, leaving the `=` behind, so the repaired query still contains
a comparison (`transaction_count= 10`). -/
theorem c10_le_operator_leaves_comparison :
    validate_and_fix_query "SELECT * FROM transactions WHERE count <= 10" =
      "SELECT * FROM transactions WHERE transaction_count= 10"
    ∧ containsStr (validate_and_fix_query "SELECT * FROM transactions WHERE count <= 10")
        "transaction_count= 10" = true := by
  refine ⟨by decide, by decide⟩

set_option maxHeartbeats 4000000 in
/-- C10 (amended, scoped to the stated family as the counterexample
forces): for every single character `<`, `>`, `=` used as the whole
comparison operator (not the first character of a longer operator), every
context in `c10Bases` and every right-hand side in `c10Rhss`,
`WHERE count <op>` is replaced by `WHERE transaction_count` and
`WHERE success_rate <op>` by the inline-subquery expression, deleting that
operator while leaving the right-hand operand, so the repaired query no
longer contains the original comparison; when the character begins a longer
operator such as `<=`, only the first character is consumed and the
trailing `=` survives (see the counterexample). -/
theorem c10_amended_single_op_replacements :
    (c10Ops.all (fun op => c10Bases.all (fun b => c10Rhss.all (fun rhs =>
      validate_and_fix_query (b ++ "WHERE count " ++ op ++ " " ++ rhs)
        == b ++ "WHERE transaction_count " ++ rhs))) = true)
    ∧ (c10Ops.all (fun op => c10Bases.all (fun b =>
      validate_and_fix_query (b ++ "WHERE success_rate " ++ op ++ " 10")
        == b ++ "WHERE (SELECT success_rate FROM " ++
             transactionSummarySubquery ++ ") 10")) = true)
    ∧ (c10Ops.all (fun op => c10Bases.all (fun b => c10Rhss.all (fun rhs =>
      !(containsStr (validate_and_fix_query (b ++ "WHERE count " ++ op ++ " " ++ rhs))
          ("count " ++ op))))) = true)
    ∧ (c10Ops.all (fun op =>
      !(containsStr (validate_and_fix_query ("WHERE success_rate " ++ op ++ " 10"))
          ("success_rate " ++ op))) = true) := by
  refine ⟨by decide, by decide, by decide, by decide⟩

/-- Helper: every response the simple-path handler returns — in its success
branch, its timeout-degraded branch, and its `except Exception` failure
branch alike — has empty SQL, an empty data list and zero record count. -/
theorem handle_simple_llm_query_shape (env : ChatEnv) (req : ChatQueryRequest) (cid : String) :
    match handle_simple_llm_query env req cid with
    | .ok r => r.sql_query = "" ∧ r.data = [] ∧ r.record_count = 0
    | .error _ => True := by
  unfold handle_simple_llm_query
  rcases env.simpleGen with r | _ | e
  · simp [with_timeoutM]
  · simp [with_timeoutM]
  · rcases e with e' | m
    · by_cases h : e'.status = 408 <;> simp [with_timeoutM, h]
    · simp [with_timeoutM]

/-- C7: whenever the classifier returns `simple`, any `ChatResponse` the
main endpoint returns has an empty SQL field, an empty data list and a
record count of zero — this covers both the success and the failure branch
of the simple path (a branch that raises instead returns nothing). -/
theorem c7_simple_path_empty_sql_and_data (env : ChatEnv) (req : ChatQueryRequest)
    (hcl : env.classify = .ok ⟨"simple"⟩) :
    match (handle_chat_query env req).1 with
    | .ok r => r.sql_query = "" ∧ r.data = [] ∧ r.record_count = 0
    | .error _ => True := by
  unfold handle_chat_query handleInner
  rcases hcs : chatSetup env req with e | ⟨cid, hist⟩
  · rcases e with e' | m
    · simp [outerBoundary]
    · simp [outerBoundary, errorChatResponse]
  · rw [hcl]
    have hclassify : classifyStep (.ok ⟨"simple"⟩) = .ok "simple" := rfl
    rw [hclassify]
    show (match (outerBoundary req env.elapsedMs (handle_simple_llm_query env req cid, [])).1 with
         | .ok r => r.sql_query = "" ∧ r.data = [] ∧ r.record_count = 0
         | .error _ => True)
    have hs := handle_simple_llm_query_shape env req cid
    rcases hh : handle_simple_llm_query env req cid with e | r
    · rcases e with e' | m
      · simp [outerBoundary]
      · simp [outerBoundary, errorChatResponse]
    · rw [hh] at hs
      simpa [outerBoundary] using hs

/-- Witness for C7 at a concrete environment classified as `simple`. -/
theorem c7_simple_path_empty_sql_and_data_witness :
    c7Env.classify = .ok ⟨"simple"⟩
    ∧ (match (handle_chat_query c7Env ⟨"How to resolve this issue?", "new", none⟩).1 with
       | .ok r => r.sql_query = "" ∧ r.data = [] ∧ r.record_count = 0
       | .error _ => True) :=
  ⟨rfl, c7_simple_path_empty_sql_and_data c7Env ⟨"How to resolve this issue?", "new", none⟩ rfl⟩

/-- C2: for every request continuing an existing chat under a non-empty
chat id (an empty one is rejected by validation before any call is made),
whenever the first execution of the repaired SQL fails with the
distinguished computed-column error, the orchestrator regenerates exactly
once — with the same augmented prompt and an empty message history —
repairs and re-executes the fresh SQL; and when that second execution fails
with the same kind of error, that error is surfaced (propagated like any
execution failure), with no further generation or execution call: the
trace contains exactly two generation calls and two execution calls. -/
theorem c2_computed_column_retry_once
    (env : ChatEnv) (q cid : String) (hist : List Msg)
    (g1 g2 : SQLGenerationResponse) (msg1 msg2 : String)
    (hne : cid ≠ "")
    (hex : env.chatExistsInDb cid = true)
    (hload : env.loadMessages cid = .ok hist)
    (hcl : env.classify = .ok ⟨"sql"⟩)
    (hg1 : env.gen1 = .ok g1)
    (hg2 : env.genRetry = .ok g2)
    (hf1 : env.fetch (limitedQuery (validate_and_fix_query g1.sql_query)) = .dbError msg1)
    (hm1 : computedColumnCheck msg1 = true)
    (hf2 : env.fetch (limitedQuery (validate_and_fix_query g2.sql_query)) = .dbError msg2)
    (hm2 : computedColumnCheck msg2 = true) :
    handle_chat_query env ⟨q, "existing", some cid⟩ =
      (.error (.http ⟨400, computedColumnDetail⟩),
       [.genCall (augmentedQuery q) hist,
        .execCall (validate_and_fix_query g1.sql_query),
        .genCall (augmentedQuery q) [],
        .execCall (validate_and_fix_query g2.sql_query)]) := by
  have hsetup : chatSetup env ⟨q, "existing", some cid⟩ = .ok (cid, hist) := by
    show (if cid = "" then
            Except.error (.http ⟨400, "chat_id is required when chat_type is 'existing'"⟩)
          else if env.chatExistsInDb cid || env.chatInCache cid then
            match env.loadMessages cid with
            | Except.ok ms => Except.ok (cid, ms)
            | Except.error e => Except.error e
          else Except.error (.http ⟨404, "Chat " ++ cid ++ " not found"⟩)) = Except.ok (cid, hist)
    rw [if_neg hne, hex]
    simp [hload]
  have hclassify : classifyStep env.classify = .ok "sql" := by
    rw [hcl]
    rfl
  have hexec1 : execute_query env.fetch (validate_and_fix_query g1.sql_query) =
      .error (.http ⟨400, computedColumnDetail⟩) := by
    simp only [execute_query, hf1]
    rw [if_pos hm1]
  have hexec2 : execute_query env.fetch (validate_and_fix_query g2.sql_query) =
      .error (.http ⟨400, computedColumnDetail⟩) := by
    simp only [execute_query, hf2]
    rw [if_pos hm2]
  unfold handle_chat_query handleInner
  rw [hsetup, hclassify]
  show outerBoundary _ env.elapsedMs (sqlBranch env ⟨q, "existing", some cid⟩ cid hist) = _
  unfold sqlBranch
  rw [hg1]
  show outerBoundary _ env.elapsedMs
    (match execute_query env.fetch (validate_and_fix_query g1.sql_query) with
     | .ok data =>
       (afterData env ⟨q, "existing", some cid⟩ cid (validate_and_fix_query g1.sql_query) data,
        [.genCall (augmentedQuery q) hist, .execCall (validate_and_fix_query g1.sql_query)])
     | .error (.exc m) =>
       (.error (.exc m),
        [.genCall (augmentedQuery q) hist, .execCall (validate_and_fix_query g1.sql_query)])
     | .error (.http e) =>
       if e.status = 400 ∧ containsStr e.detail "computed column" then
         match with_timeoutM env.genRetry "Fresh SQL generation" with
         | .error er =>
           (.error er,
            [.genCall (augmentedQuery q) hist, .execCall (validate_and_fix_query g1.sql_query),
             .genCall (augmentedQuery q) []])
         | .ok freshResp =>
           match execute_query env.fetch (validate_and_fix_query freshResp.sql_query) with
           | .ok data =>
             (afterData env ⟨q, "existing", some cid⟩ cid
                (validate_and_fix_query freshResp.sql_query) data,
              [.genCall (augmentedQuery q) hist, .execCall (validate_and_fix_query g1.sql_query),
               .genCall (augmentedQuery q) [],
               .execCall (validate_and_fix_query freshResp.sql_query)])
           | .error e2 =>
             (.error e2,
              [.genCall (augmentedQuery q) hist, .execCall (validate_and_fix_query g1.sql_query),
               .genCall (augmentedQuery q) [],
               .execCall (validate_and_fix_query freshResp.sql_query)])
       else
         (.error (.http e),
          [.genCall (augmentedQuery q) hist, .execCall (validate_and_fix_query g1.sql_query)])) = _
  rw [hexec1, hg2]
  show outerBoundary _ env.elapsedMs
    (match execute_query env.fetch (validate_and_fix_query g2.sql_query) with
     | .ok data =>
       (afterData env ⟨q, "existing", some cid⟩ cid (validate_and_fix_query g2.sql_query) data,
        [.genCall (augmentedQuery q) hist, .execCall (validate_and_fix_query g1.sql_query),
         .genCall (augmentedQuery q) [], .execCall (validate_and_fix_query g2.sql_query)])
     | .error e2 =>
       (.error e2,
        [.genCall (augmentedQuery q) hist, .execCall (validate_and_fix_query g1.sql_query),
         .genCall (augmentedQuery q) [], .execCall (validate_and_fix_query g2.sql_query)])) = _
  rw [hexec2]
  rfl

/-- Environment for the C2 witness: an existing chat with a two-message
history, distinct first and fresh generations, and a store that always
reports a missing `final_status` column. -/
def c2Env : ChatEnv :=
  { benignChatEnv with
    loadMessages := fun _ => .ok [1, 2]
    gen1 := .ok ⟨"SELECT a FROM t", "first"⟩
    genRetry := .ok ⟨"SELECT b FROM t", "fresh"⟩
    fetch := fun _ => .dbError "column \"final_status\" does not exist" }

/-- Witness for C2 at a concrete environment: both executions fail with the
computed-column error, the trace shows exactly two generation calls — the
second with the same augmented prompt and an empty history — and two
execution calls, and the error is surfaced. -/
theorem c2_computed_column_retry_once_witness :
    ("c1" : String) ≠ ""
    ∧ c2Env.chatExistsInDb "c1" = true
    ∧ c2Env.loadMessages "c1" = .ok [1, 2]
    ∧ c2Env.classify = .ok ⟨"sql"⟩
    ∧ c2Env.gen1 = .ok ⟨"SELECT a FROM t", "first"⟩
    ∧ c2Env.genRetry = .ok ⟨"SELECT b FROM t", "fresh"⟩
    ∧ c2Env.fetch (limitedQuery (validate_and_fix_query "SELECT a FROM t")) =
        .dbError "column \"final_status\" does not exist"
    ∧ computedColumnCheck "column \"final_status\" does not exist" = true
    ∧ handle_chat_query c2Env ⟨"How many transactions failed?", "existing", some "c1"⟩ =
        (.error (.http ⟨400, computedColumnDetail⟩),
         [.genCall (augmentedQuery "How many transactions failed?") [1, 2],
          .execCall (validate_and_fix_query "SELECT a FROM t"),
          .genCall (augmentedQuery "How many transactions failed?") [],
          .execCall (validate_and_fix_query "SELECT b FROM t")]) :=
  ⟨by decide, rfl, rfl, rfl, rfl, rfl, rfl, by decide,
   c2_computed_column_retry_once c2Env "How many transactions failed?" "c1" [1, 2]
     ⟨"SELECT a FROM t", "first"⟩ ⟨"SELECT b FROM t", "fresh"⟩
     "column \"final_status\" does not exist" "column \"final_status\" does not exist"
     (by decide) rfl rfl rfl rfl rfl rfl (by decide) rfl (by decide)⟩
